import Mathlib

/-!
Verification of the resume-export core (markdown parser, docx builder,
ATS validator) against its specification.

The definitions below are a shallow embedding of the Python sources
`src/resume_export/parser.py`, `src/resume_export/docx_builder.py` and
`src/resume_export/validators/ats_checker.py`.  Python strings are
modelled as Lean `String` (a wrapper around `List Char`); the handful of
regular expressions used by the parser are modelled by dedicated total
matching functions with the same greedy-backtracking semantics,
restricted to ASCII character classes (the sources only ever feed them
resume text).  Python dicts (which preserve insertion order and
overwrite values in place) are modelled as association lists with an
order-preserving `dictSet`.
-/

set_option maxRecDepth 4096

/-! ### String helpers mirroring Python `str` methods -/

/-- The characters stripped by Python `str.strip()` (ASCII whitespace). -/
def isPySpace (c : Char) : Bool :=
  c == ' ' || c == '\t' || c == '\n' || c == '\r' || c == '\x0b' || c == '\x0c'

/-- Drop the trailing run of characters satisfying `p`. -/
def dropTrailing (p : Char → Bool) (l : List Char) : List Char :=
  (l.reverse.dropWhile p).reverse

/-- Python `str.strip()`. -/
def pyStrip (s : String) : String :=
  ⟨dropTrailing isPySpace (s.data.dropWhile isPySpace)⟩

/-- Python `str.strip(c)` for a single character `c` (for example `strip('*')`). -/
def pyStripChar (c : Char) (s : String) : String :=
  ⟨dropTrailing (· == c) (s.data.dropWhile (· == c))⟩

/-- Does `hay` start with `needle`?  Python `str.startswith`. -/
def listStartsWith : List Char → List Char → Bool
  | _, [] => true
  | [], _ :: _ => false
  | a :: as, b :: bs => a == b && listStartsWith as bs

def strStartsWith (s t : String) : Bool := listStartsWith s.data t.data

def strEndsWith (s t : String) : Bool := listStartsWith s.data.reverse t.data.reverse

/-- Substring containment, Python `needle in hay`. -/
def containsList (needle : List Char) : List Char → Bool
  | [] => listStartsWith [] needle
  | c :: t => listStartsWith (c :: t) needle || containsList needle t

def containsStr (s pat : String) : Bool := containsList pat.data s.data

/-- Python `str.lower()` (ASCII). -/
def toLowerStr (s : String) : String := ⟨s.data.map Char.toLower⟩

/-- Python `str.upper()` (ASCII). -/
def strUpper (s : String) : String := ⟨s.data.map Char.toUpper⟩

/-- Python `s[n:]`. -/
def strDrop (s : String) (n : Nat) : String := ⟨s.data.drop n⟩

/-- Python single-character `str.split(sep)`: keeps empty segments, never
returns an empty list. -/
def splitListChar (sep : Char) : List Char → List (List Char)
  | [] => [[]]
  | c :: t =>
    if c == sep then [] :: splitListChar sep t
    else
      match splitListChar sep t with
      | h :: r => (c :: h) :: r
      | [] => [[c]]

def splitStr (sep : Char) (s : String) : List String :=
  (splitListChar sep s.data).map (fun l => (⟨l⟩ : String))

/-- Python `sep.join(parts)`. -/
def joinStr (sep : String) : List String → String
  | [] => ""
  | h :: t => t.foldl (fun acc x => acc ++ sep ++ x) h

/-! ### Tiny greedy-backtracking matchers for the parser regexes

`plusThen cls k` models a greedy `cls+` followed by continuation `k`
(the rest of the pattern); `optThen` models greedy `cls?`; `repN` models
`cls{n}`.  Each returns the text matched from the current position
onwards.  `firstMatch` models `re.search` (leftmost match). -/

def plusMore (cls : Char → Bool) (k : List Char → Option (List Char)) :
    List Char → Option (List Char)
  | [] => k []
  | c :: t =>
    if cls c then
      match plusMore cls k t with
      | some r => some (c :: r)
      | none => k (c :: t)
    else k (c :: t)

def plusThen (cls : Char → Bool) (k : List Char → Option (List Char)) :
    List Char → Option (List Char)
  | [] => none
  | c :: t => if cls c then (plusMore cls k t).map (fun r => c :: r) else none

def optThen (cls : Char → Bool) (k : List Char → Option (List Char)) :
    List Char → Option (List Char)
  | [] => k []
  | c :: t =>
    if cls c then
      match k t with
      | some r => some (c :: r)
      | none => k (c :: t)
    else k (c :: t)

def repN (cls : Char → Bool) : Nat → (List Char → Option (List Char)) →
    List Char → Option (List Char)
  | 0, k, s => k s
  | n + 1, k, s =>
    match s with
    | [] => none
    | c :: t => if cls c then (repN cls n k t).map (fun r => c :: r) else none

def firstMatch (matchAt : List Char → Option (List Char)) :
    List Char → Option (List Char)
  | [] => matchAt []
  | c :: t =>
    match matchAt (c :: t) with
    | some r => some r
    | none => firstMatch matchAt t

def searchStr (matchAt : List Char → Option (List Char)) (s : String) : Option String :=
  (firstMatch matchAt s.data).map (fun l => (⟨l⟩ : String))

/-- Regex `\w` (ASCII). -/
def isWordChar (c : Char) : Bool := c.isAlphanum || c == '_'

/-- Character class `[\w\.-]` of the email pattern. -/
def isEmailChar (c : Char) : Bool := isWordChar c || c == '.' || c == '-'

/-- Character class `[-.\s]` of the phone pattern. -/
def isPhoneSep (c : Char) : Bool := c == '-' || c == '.' || isPySpace c

/-- Character class of the linkedin/github patterns: `\w`, dot, dash, slash. -/
def isLinkChar (c : Char) : Bool := isWordChar c || c == '.' || c == '-' || c == '/'

/-- Match of `[\w\.-]+@[\w\.-]+\.\w+` at the current position. -/
def emailAt : List Char → Option (List Char) :=
  plusThen isEmailChar (fun r =>
    match r with
    | '@' :: r2 =>
      (plusThen isEmailChar (fun r3 =>
        match r3 with
        | '.' :: r4 => (plusThen isWordChar (fun _ => some []) r4).map (fun w => '.' :: w)
        | _ => none) r2).map (fun m => '@' :: m)
    | _ => none)

/-- Match of `\(?\d{3}\)?[-.\s]?\d{3}[-.\s]?\d{4}` at the current position. -/
def phoneAt : List Char → Option (List Char) :=
  optThen (· == '(') (repN Char.isDigit 3 (optThen (· == ')')
    (optThen isPhoneSep (repN Char.isDigit 3 (optThen isPhoneSep
      (repN Char.isDigit 4 (fun _ => some [])))))))

/-- Match of `\d{3}[-.\s]?\d{3}[-.\s]?\d{4}` (the location heuristic). -/
def phoneRunAt : List Char → Option (List Char) :=
  repN Char.isDigit 3 (optThen isPhoneSep (repN Char.isDigit 3 (optThen isPhoneSep
    (repN Char.isDigit 4 (fun _ => some [])))))

/-- Match of `\d{4}` at the current position. -/
def year4At : List Char → Option (List Char) :=
  repN Char.isDigit 4 (fun _ => some [])

/-- Match of `[Ll]inked[Ii]n:` followed by `\s*` and a captured run of
link characters (regex group 1), as in the source pattern. -/
def linkedinAt : List Char → Option (List Char)
  | c :: 'i' :: 'n' :: 'k' :: 'e' :: 'd' :: c2 :: 'n' :: ':' :: r =>
    if (c == 'L' || c == 'l') && (c2 == 'I' || c2 == 'i') then
      let r2 := r.dropWhile isPySpace
      let g := r2.takeWhile isLinkChar
      if g.isEmpty then none else some g
    else none
  | _ => none

/-- Match of `[Gg]it[Hh]ub:` followed by `\s*` and a captured run of link
characters (regex group 1), as in the source pattern. -/
def githubAt : List Char → Option (List Char)
  | c :: 'i' :: 't' :: c2 :: 'u' :: 'b' :: ':' :: r =>
    if (c == 'G' || c == 'g') && (c2 == 'H' || c2 == 'h') then
      let r2 := r.dropWhile isPySpace
      let g := r2.takeWhile isLinkChar
      if g.isEmpty then none else some g
    else none
  | _ => none

/-! ### Ordered-dict helpers (Python `dict` semantics) -/

/-- `m[k] = v`: overwrite in place if the key exists, else append. -/
def dictSet {α : Type} : List (String × α) → String → α → List (String × α)
  | [], k, v => [(k, v)]
  | (k0, v0) :: t, k, v =>
    if k0 == k then (k0, v) :: t else (k0, v0) :: dictSet t k v

def dictMem {α : Type} (m : List (String × α)) (k : String) : Bool :=
  m.any (fun kv => kv.1 == k)

def dictGetD {α : Type} (m : List (String × α)) (k : String) (d : α) : α :=
  ((m.find? (fun kv => kv.1 == k)).map Prod.snd).getD d

/-- `m[k].extend(items)` (with `m[k]` defaulting to `[]`). -/
def dictExtend (m : List (String × List String)) (k : String)
    (items : List String) : List (String × List String) :=
  dictSet m k (dictGetD m k [] ++ items)

/-! ### Data model (`ResumeParser.parse` output) -/

structure Contact where
  location : String
  email : String
  phone : String
  linkedin : String
  github : String
  website : String
deriving DecidableEq

structure Job where
  title : String
  company : String
  location : String
  dates : String
  description : String
  achievements : List String
deriving DecidableEq

structure Edu where
  degree : String
  school : String
  year : String
  details : List String
deriving DecidableEq

structure ResumeData where
  name : String
  contact : Contact
  summary : String
  skills : List (String × List String)
  experience : List Job
  education : List Edu
  certifications : List String
  raw_sections : List (String × String)
deriving DecidableEq

namespace ResumeParser

/-- `ResumeParser._extract_name`: first stripped line starting with "# ". -/
def extract_name : List String → String
  | [] => "Resume"
  | l :: t =>
    let ls := pyStrip l
    if strStartsWith ls "# " then pyStrip (strDrop ls 2) else extract_name t

/-- The loop of `ResumeParser._extract_contact` collecting the stripped,
non-empty lines between the first H1 and the first H2. -/
def contact_lines_of : List String → Bool → List String
  | [], _ => []
  | l :: t, inC =>
    let ls := pyStrip l
    if strStartsWith ls "# " then contact_lines_of t true
    else if strStartsWith ls "## " then []
    else if inC && ls != "" then ls :: contact_lines_of t inC
    else contact_lines_of t inC

/-- The location loop of `ResumeParser._extract_contact`: first line with no
`@`, no "linkedin"/"github" (case-insensitive) and no phone-like digit
run; keep the part before the first `|` if non-empty. -/
def find_location : List String → String
  | [] => ""
  | l :: t =>
    let lc := pyStrip l
    if lc != "" && !containsStr lc "@" && !containsStr (toLowerStr lc) "linkedin" &&
        !containsStr (toLowerStr lc) "github" && !(firstMatch phoneRunAt lc.data).isSome then
      let loc := pyStrip ((splitStr '|' lc).getD 0 "")
      if loc != "" then loc else find_location t
    else find_location t

/-- `ResumeParser._extract_contact`. -/
def extract_contact (lines : List String) : Contact :=
  let cls := contact_lines_of lines false
  let contact_text := joinStr " " cls
  { location := find_location cls
    email := (searchStr emailAt contact_text).getD ""
    phone := (searchStr phoneAt contact_text).getD ""
    linkedin := (searchStr linkedinAt contact_text).getD ""
    github := (searchStr githubAt contact_text).getD ""
    website := "" }

/-- `ResumeParser._split_into_sections`.  `cur = ""` plays the role of the
Python `None` / empty falsy section name (both drop content). -/
def split_sections_aux : List String → List (String × String) → String →
    List String → List (String × String)
  | [], secs, cur, content =>
    if cur != "" then dictSet secs cur (joinStr "\n" content.reverse) else secs
  | l :: t, secs, cur, content =>
    if strStartsWith l "## " then
      let secs2 := if cur != "" then dictSet secs cur (joinStr "\n" content.reverse) else secs
      split_sections_aux t secs2 (pyStrip (strDrop l 3)) []
    else if cur != "" then split_sections_aux t secs cur (l :: content)
    else split_sections_aux t secs cur content

def split_into_sections (lines : List String) : List (String × String) :=
  split_sections_aux lines [] "" []

/-- `ResumeParser._parse_summary`. -/
def parse_summary (content : String) : String :=
  joinStr " " (((splitStr '\n' content).map pyStrip).filter (fun l => l != ""))

/-- `re.match(r'\*\*([^*]+)\*\*:\s*(.+)', line)` returning the two capture
groups.  Lines fed to it come from splitting on newline, so `.` and the
`\s*`-vs-`.+` backtracking behave as plain character matching here. -/
def boldColonMatch (s : String) : Option (String × String) :=
  match s.data with
  | '*' :: '*' :: rest =>
    let g1 := rest.takeWhile (· != '*')
    let r := rest.dropWhile (· != '*')
    if g1.isEmpty then none
    else
      match r with
      | '*' :: '*' :: ':' :: r2 =>
        let r3 := r2.dropWhile isPySpace
        if !r3.isEmpty then some ((⟨g1⟩ : String), (⟨r3⟩ : String))
        else
          match r2.reverse with
          | [] => none
          | c :: _ => some ((⟨g1⟩ : String), (⟨[c]⟩ : String))
      | _ => none
  | _ => none

/-- One line of `ResumeParser._parse_skills`.  State: (skills dict,
current category).  Note the `**Category**: items` branch writes the
category list but leaves the current category unchanged. -/
def skills_step (st : List (String × List String) × String) (line0 : String) :
    List (String × List String) × String :=
  let line := pyStrip line0
  if line == "" then st
  else if strStartsWith line "### " then
    let cat := pyStrip (strDrop line 4)
    (dictSet st.1 cat [], cat)
  else if strStartsWith line "**" && strEndsWith line "**" then
    let cat := pyStrip (pyStripChar '*' line)
    (dictSet st.1 cat [], cat)
  else if containsStr line "**" && containsStr line ":" then
    match boldColonMatch line with
    | some (g1, g2) =>
      (dictSet st.1 (pyStrip g1) ((splitStr ',' (pyStrip g2)).map pyStrip), st.2)
    | none => st
  else
    let sk := if dictMem st.1 st.2 then st.1 else dictSet st.1 st.2 []
    if containsStr line "," then
      (dictExtend sk st.2 ((splitStr ',' line).map pyStrip), st.2)
    else
      (dictExtend sk st.2 [line], st.2)

/-- `ResumeParser._parse_skills`. -/
def parse_skills (content : String) : List (String × List String) :=
  ((splitStr '\n' content).foldl skills_step ([], "General")).1

/-- `re.search(r'\d{4}|[Jj]an|...|[Dd]ec', s)`: the third pipe segment of a
job header is classified as dates by this test. -/
def looksLikeDates (s : String) : Bool :=
  (firstMatch year4At s.data).isSome ||
    (["Jan", "jan", "Feb", "feb", "Mar", "mar", "Apr", "apr", "May", "may",
      "Jun", "jun", "Jul", "jul", "Aug", "aug", "Sep", "sep", "Oct", "oct",
      "Nov", "nov", "Dec", "dec"].any (fun m => containsStr s m))

/-- `ResumeParser._parse_job_header` (the caller immediately sets
`achievements = []`, which is folded into the record here). -/
def parse_job_header (h : String) : Job :=
  let parts := (splitStr '|' h).map pyStrip
  let j0 : Job := ⟨"", "", "", "", "", []⟩
  let j1 := if 1 ≤ parts.length then { j0 with title := parts.getD 0 "" } else j0
  let j2 := if 2 ≤ parts.length then { j1 with company := parts.getD 1 "" } else j1
  let j3 :=
    if 3 ≤ parts.length then
      if looksLikeDates (parts.getD 2 "") then { j2 with dates := parts.getD 2 "" }
      else { j2 with location := parts.getD 2 "" }
    else j2
  if 4 ≤ parts.length then { j3 with dates := parts.getD 3 "" } else j3

/-- One line of `ResumeParser._parse_experience`.  State: (finished jobs,
current job). -/
def exp_step (st : List Job × Option Job) (line0 : String) : List Job × Option Job :=
  let ls := pyStrip line0
  if strStartsWith ls "### " then
    (match st.2 with
     | some j => st.1 ++ [j]
     | none => st.1,
     some (parse_job_header (strDrop ls 4)))
  else if strStartsWith ls "*" && strEndsWith ls "*" then
    match st.2 with
    | some j =>
      if j.dates == "" then (st.1, some { j with dates := pyStrip (pyStripChar '*' ls) })
      else st
    | none => st
  else
    match st.2 with
    | some j =>
      if ls != "" && !strStartsWith ls "-" && !strStartsWith ls "*" && j.description == "" then
        (st.1, some { j with description := ls })
      else if strStartsWith ls "- " then
        (st.1, some { j with achievements := j.achievements ++ [pyStrip (strDrop ls 2)] })
      else st
    | none => st

/-- `ResumeParser._parse_experience`. -/
def parse_experience (content : String) : List Job :=
  let st := (splitStr '\n' content).foldl exp_step ([], none)
  match st.2 with
  | some j => st.1 ++ [j]
  | none => st.1

/-- `re.match(r'\*\*([^*]+)\*\*(.+)?', line)`; group 2 is `""` when absent
(the source replaces a falsy group 2 by `""` before stripping). -/
def degree_match (s : String) : Option (String × String) :=
  match s.data with
  | '*' :: '*' :: rest =>
    let g1 := rest.takeWhile (· != '*')
    let r := rest.dropWhile (· != '*')
    if g1.isEmpty then none
    else
      match r with
      | '*' :: '*' :: r2 => some ((⟨g1⟩ : String), (⟨r2⟩ : String))
      | _ => none
  | _ => none

/-- `re.split(r'\s*[|\-]\s*', s)`: split on every `|`/`-`, deleting the
whitespace adjacent to each separator (leading whitespace of the first
token and trailing whitespace of the last are kept). -/
def splitOnSep : List Char → List (List Char)
  | [] => [[]]
  | c :: t =>
    if c == '|' || c == '-' then [] :: splitOnSep t
    else
      match splitOnSep t with
      | h :: r => (c :: h) :: r
      | [] => [[c]]

def splitPipeDashStr (s : String) : List String :=
  let toks := splitOnSep s.data
  let n := toks.length
  toks.enum.map (fun it =>
    let a := if 0 < it.1 then it.2.dropWhile isPySpace else it.2
    let b := if it.1 + 1 < n then dropTrailing isPySpace a else a
    (⟨b⟩ : String))

/-- Build a fresh education entry from the two groups of `degree_match`
(`**Degree** | School | Year`). -/
def edu_from_header (g1 g2 : String) : Edu :=
  let degree := pyStrip g1
  let rest := pyStrip g2
  if rest != "" then
    let rest2 := pyStrip ⟨rest.data.dropWhile (fun c => c == '|' || c == '-')⟩
    let parts := splitPipeDashStr rest2
    let school := pyStrip (parts.getD 0 "")
    let year :=
      if 2 ≤ parts.length then
        match firstMatch year4At (parts.getD 1 "").data with
        | some y => (⟨y⟩ : String)
        | none => pyStrip (parts.getD 1 "")
      else ""
    ⟨degree, school, year, []⟩
  else ⟨degree, "", "", []⟩

/-- State of `ResumeParser._parse_education`.  Python appends the
*reference* of the current dict on each header line; if the degree regex
then fails to match, the very same dict stays current, keeps
accumulating details and is appended again later.  `curCount` counts how
many times the current entry has already been appended. -/
structure EduState where
  finished : List (Edu × Nat)
  cur : Option Edu
  curCount : Nat

/-- One line of `ResumeParser._parse_education`. -/
def edu_step (st : EduState) (line0 : String) : EduState :=
  let line := pyStrip line0
  if line == "" then st
  else if strStartsWith line "**" && containsStr (strDrop line 2) "**" then
    let cnt := match st.cur with
      | some _ => st.curCount + 1
      | none => st.curCount
    match degree_match line with
    | some (g1, g2) =>
      let finished := match st.cur with
        | some e => st.finished ++ [(e, cnt)]
        | none => st.finished
      ⟨finished, some (edu_from_header g1 g2), 0⟩
    | none => { st with curCount := cnt }
  else
    match st.cur with
    | some e => { st with cur := some { e with details := e.details ++ [line] } }
    | none => st

/-- `ResumeParser._parse_education`. -/
def parse_education (content : String) : List Edu :=
  let st := (splitStr '\n' content).foldl edu_step ⟨[], none, 0⟩
  let closed := match st.cur with
    | some e => st.finished ++ [(e, st.curCount + 1)]
    | none => st.finished
  (closed.map (fun en => List.replicate en.2 en.1)).flatten

/-- `ResumeParser._parse_certifications`. -/
def parse_certifications (content : String) : List String :=
  (((splitStr '\n' content).map pyStrip).filter
      (fun l => l != "" && !strStartsWith l "#")).map
    (fun l => if strStartsWith l "- " then strDrop l 2 else l)

/-- The section-routing loop of `ResumeParser.parse`: case-insensitive
substring classification in the fixed precedence order summary, skill,
experience, education, certification, other. -/
def route_step (d : ResumeData) (sec : String × String) : ResumeData :=
  let lo := toLowerStr sec.1
  if containsStr lo "summary" then { d with summary := parse_summary sec.2 }
  else if containsStr lo "skill" then { d with skills := parse_skills sec.2 }
  else if containsStr lo "experience" then { d with experience := parse_experience sec.2 }
  else if containsStr lo "education" then { d with education := parse_education sec.2 }
  else if containsStr lo "certification" then
    { d with certifications := parse_certifications sec.2 }
  else { d with raw_sections := dictSet d.raw_sections sec.1 sec.2 }

/-- `ResumeParser.parse` on the raw file content. -/
def parse (content : String) : ResumeData :=
  let lines := splitStr '\n' content
  let base : ResumeData :=
    ⟨extract_name lines, extract_contact lines, "", [], [], [], [], []⟩
  (split_into_sections lines).foldl route_step base

/-- `ResumeParser._read_file`: raises `FileNotFoundError` when the path is
unavailable, otherwise returns the content.  The file system is an
explicit map from paths to contents. -/
def read_file (fs : String → Option String) (path : String) : Except String String :=
  match fs path with
  | none => Except.error ("Resume file not found: " ++ path)
  | some c => Except.ok c

/-- `parse_resume` convenience entry point: read the file, then parse. -/
def parse_file (fs : String → Option String) (path : String) : Except String ResumeData :=
  match read_file fs path with
  | Except.error e => Except.error e
  | Except.ok c => Except.ok (parse c)

end ResumeParser

/-! ### DocxBuilder (`docx_builder.py`)

The rendered artifact is modelled as the ordered list of blocks the
builder appends: plain paragraphs, bordered section headers, bulleted
paragraphs and empty spacer paragraphs.  Font/size/color attributes and
the spacing point values are presentation attributes of the concrete
docx API and are not part of the block structure the claims are about. -/

inductive Block where
  | para (text : String)
  | header (title : String)
  | bullet (text : String)
  | spacer
deriving DecidableEq

namespace DocxBuilder

/-- `DocxBuilder._add_header`: name paragraph (uppercased), up to two
contact lines, then a spacer paragraph. -/
def add_header (name : String) (c : Contact) : List Block :=
  let line1_parts :=
    (if c.location ≠ "" then [c.location] else []) ++
    (if c.email ≠ "" then [c.email] else []) ++
    (if c.phone ≠ "" then [c.phone] else [])
  let line2_parts :=
    (if c.linkedin ≠ "" then ["LinkedIn: " ++ c.linkedin] else []) ++
    (if c.github ≠ "" then ["GitHub: " ++ c.github] else []) ++
    (if c.website ≠ "" then [c.website] else [])
  let contact_lines :=
    (if line1_parts ≠ [] then [joinStr "  " line1_parts] else []) ++
    (if line2_parts ≠ [] then [joinStr " | " line2_parts] else [])
  [Block.para (strUpper name)] ++ contact_lines.map Block.para ++ [Block.spacer]

/-- `DocxBuilder._add_section`: bordered header plus the stripped content
paragraph when non-empty. -/
def add_section (title content : String) : List Block :=
  [Block.header (strUpper title)] ++
    (if pyStrip content ≠ "" then [Block.para (pyStrip content)] else [])

/-- `DocxBuilder._add_skills_section`: "Core Skills" header, one paragraph
per non-empty category (bold category run, then newline plus the
comma-joined list in a second run of the same paragraph), spacer. -/
def add_skills_section (skills : List (String × List String)) : List Block :=
  [Block.header (strUpper "Core Skills")] ++
    ((skills.filter (fun kv => !kv.2.isEmpty)).map
      (fun kv => Block.para (kv.1 ++ "\n" ++ joinStr ", " kv.2))) ++
    [Block.spacer]

/-- The blocks of one job inside `DocxBuilder._add_experience_section`. -/
def job_blocks (job : Job) : List Block :=
  let company_parts :=
    (if job.company ≠ "" then [job.company] else []) ++
    (if job.location ≠ "" then [job.location] else [])
  [Block.para (job.title ++
      (if company_parts ≠ [] then " | " ++ joinStr " | " company_parts else ""))] ++
    (if job.dates ≠ "" then [Block.para job.dates] else []) ++
    (if job.description ≠ "" then [Block.para job.description] else []) ++
    job.achievements.map Block.bullet

/-- `DocxBuilder._add_experience_section`. -/
def add_experience_section (jobs : List Job) : List Block :=
  [Block.header (strUpper "Professional Experience")] ++
    (jobs.enum.map (fun ij =>
      job_blocks ij.2 ++ (if ij.1 < jobs.length - 1 then [Block.spacer] else []))).flatten ++
    [Block.spacer]

/-- The blocks of one entry inside `DocxBuilder._add_education_section`. -/
def edu_blocks (edu : Edu) : List Block :=
  let edu_parts :=
    (if edu.school ≠ "" then [edu.school] else []) ++
    (if edu.year ≠ "" then ["(" ++ edu.year ++ ")"] else [])
  [Block.para (edu.degree ++
      (if edu_parts ≠ [] then
        " | " ++ (if edu_parts.length = 2 then joinStr " - " edu_parts else edu_parts.getD 0 "")
       else ""))] ++
    (edu.details.filter (fun d => pyStrip d ≠ "")).map Block.para

/-- `DocxBuilder._add_education_section`. -/
def add_education_section (education : List Edu) : List Block :=
  [Block.header (strUpper "Education")] ++ (education.map edu_blocks).flatten ++ [Block.spacer]

/-- `DocxBuilder._add_certifications_section`. -/
def add_certifications_section (certifications : List String) : List Block :=
  [Block.header (strUpper "Certifications")] ++ certifications.map Block.bullet ++ [Block.spacer]

/-- `DocxBuilder.build`: header, then each section only when its data is
truthy (non-empty string / non-empty collection), then the raw other
sections in stored order. -/
def build (data : ResumeData) : List Block :=
  add_header data.name data.contact ++
  (if data.summary ≠ "" then add_section "Summary" data.summary else []) ++
  (if data.skills ≠ [] then add_skills_section data.skills else []) ++
  (if data.experience ≠ [] then add_experience_section data.experience else []) ++
  (if data.education ≠ [] then add_education_section data.education else []) ++
  (if data.certifications ≠ [] then add_certifications_section data.certifications else []) ++
  (data.raw_sections.map (fun kv => add_section kv.1 kv.2)).flatten

end DocxBuilder

/-! ### ATSValidator (`validators/ats_checker.py`)

A readable artifact exposes exactly the surface the checks inspect:
file size in bytes, the explicit font name of every run (`""` when the
run has no explicit font, matching the falsy `None`), the table count,
the relationship target strings, and the paragraph texts.  The repo
ships no `templates/styles.yaml`, so `_load_styles` returns `{}` and
every check runs with the hard-coded defaults.  Messages that
interpolate measured numbers are kept as their constant prose (the
claims only inspect `check_name`, `passed` and `severity`). -/

structure ValidationResult where
  check_name : String
  passed : Bool
  message : String
  severity : String
deriving DecidableEq

structure DocxDoc where
  sizeBytes : Nat
  runFonts : List String
  tables : Nat
  relTargets : List String
  paragraphs : List String
deriving DecidableEq

/-- The rendered artifact as the validator finds it on disk. -/
inductive Artifact where
  | missing (path : String)
  | unreadable (path : String)
  | readable (d : DocxDoc)

namespace ATSValidator

def ATS_FRIENDLY_FONTS : List String :=
  ["Calibri", "Arial", "Times New Roman", "Georgia", "Helvetica"]

def STANDARD_SECTIONS : List String :=
  ["Summary", "Professional Summary",
   "Core Skills", "Skills", "Technical Skills",
   "Experience", "Professional Experience", "Work Experience",
   "Education"]

/-- `ATSValidator._check_file_size`: `size/(1024*1024) <= 1.0` is exact
division by a power of two, hence `sizeBytes <= 1048576`. -/
def check_file_size (d : DocxDoc) : ValidationResult :=
  if d.sizeBytes ≤ 1048576 then
    ⟨"File Size", true, "File size under 1.0MB limit", "info"⟩
  else
    ⟨"File Size", false, "File size exceeds 1.0MB limit", "critical"⟩

/-- `ATSValidator._check_fonts`: a run font counts when truthy and outside
the allow-list (the source collects them into a set; only emptiness
feeds `passed`). -/
def check_fonts (d : DocxDoc) : ValidationResult :=
  let non_ats := d.runFonts.filter (fun f => f != "" && !ATS_FRIENDLY_FONTS.contains f)
  if non_ats.isEmpty then
    ⟨"Fonts", true, "All fonts are ATS-friendly", "info"⟩
  else
    ⟨"Fonts", false, "Non-ATS fonts detected", "warning"⟩

/-- `ATSValidator._check_tables`. -/
def check_tables (d : DocxDoc) : ValidationResult :=
  if d.tables = 0 then
    ⟨"Tables", true, "No tables found (good for ATS)", "info"⟩
  else
    ⟨"Tables", false,
      "Document contains tables. ATS systems may not parse tables correctly.", "critical"⟩

/-- `ATSValidator._check_images`: count relationships whose lowercased
target contains "image". -/
def check_images (d : DocxDoc) : ValidationResult :=
  let image_count :=
    (d.relTargets.filter (fun t => containsStr (toLowerStr t) "image")).length
  if image_count = 0 then
    ⟨"Images", true, "No images found (good for ATS)", "info"⟩
  else
    ⟨"Images", false, "Document contains images. ATS systems cannot parse images.", "critical"⟩

/-- `ATSValidator._check_sections` with the default standard-section list. -/
def check_sections (d : DocxDoc) : ValidationResult :=
  let paragraph_text := (d.paragraphs.map pyStrip).filter (fun t => t != "")
  let found := STANDARD_SECTIONS.filter
    (fun sec => paragraph_text.any (fun t => containsStr (toLowerStr t) (toLowerStr sec)))
  let has_experience := found.any (fun s => containsStr (toLowerStr s) "experience")
  let has_education := found.any (fun s => containsStr (toLowerStr s) "education")
  if has_experience && has_education then
    ⟨"Sections", true, "Found standard sections", "info"⟩
  else
    ⟨"Sections", false, "Missing standard sections", "warning"⟩

/-- `ATSValidator._check_page_length`: estimated pages =
`max(1, non_empty_paragraph_count // 30)`, optimal when between
`MIN_PAGES = 1` and `MAX_PAGES = 2`. -/
def check_page_length (d : DocxDoc) : ValidationResult :=
  let paragraph_count := (d.paragraphs.filter (fun p => pyStrip p != "")).length
  let estimated_pages := max 1 (paragraph_count / 30)
  if 1 ≤ estimated_pages ∧ estimated_pages ≤ 2 then
    ⟨"Length", true, "Resume length optimal", "info"⟩
  else if estimated_pages < 1 then
    ⟨"Length", false, "Resume may be too short. Consider adding more detail.", "info"⟩
  else
    ⟨"Length", false, "Resume may be too long. Consider condensing to 2 pages.", "warning"⟩

def empty_para_count (d : DocxDoc) : Nat :=
  (d.paragraphs.filter (fun p => pyStrip p == "")).length

def long_para_count (d : DocxDoc) : Nat :=
  (d.paragraphs.filter (fun p => 150 < p.length)).length

/-- `ATSValidator._check_formatting`: a Spacing result always, a Line
Length result only when more than 5 paragraphs exceed 150 characters. -/
def check_formatting (d : DocxDoc) : List ValidationResult :=
  (if 10 < empty_para_count d then
     [⟨"Spacing", false, "Excessive empty paragraphs. Clean up spacing for ATS.", "warning"⟩]
   else
     [⟨"Spacing", true, "Spacing looks good", "info"⟩]) ++
  (if 5 < long_para_count d then
     [⟨"Line Length", false,
        "Several paragraphs have very long lines. Consider breaking them up.", "info"⟩]
   else [])

/-- `ATSValidator.validate`: existence check, open check, then the fixed
check list; valid iff no failed critical result. -/
def validate (a : Artifact) : Bool × List ValidationResult :=
  match a with
  | Artifact.missing p =>
    (false, [⟨"File Existence", false, "File not found: " ++ p, "critical"⟩])
  | Artifact.unreadable _ =>
    (false, [⟨"File Format", false, "Cannot open as .docx file", "critical"⟩])
  | Artifact.readable d =>
    let results :=
      [check_file_size d, check_fonts d, check_tables d, check_images d,
       check_sections d, check_page_length d] ++ check_formatting d
    let critical_failures := results.filter (fun r => !r.passed && r.severity == "critical")
    (decide (critical_failures.length = 0), results)

end ATSValidator

/-! ### Claim theorems -/

/-- The input of concrete scenario A. -/
def janeInput : String :=
  "# Jane Doe\nNYC | jane@x.com | 555-123-4567\n## Education\n**BS Computer Science** | MIT | 2020\n"

/-- C1, counterexample: on the scenario-A input the extracted location is
not "NYC" — the only contact line contains an `@` (and a phone-like
digit run), so the location loop skips it and no location is set. -/
theorem C1_scenarioA_location_counterexample :
    (ResumeParser.parse janeInput).contact.location ≠ "NYC" := by
  decide

/-- C1 (amended): the scenario-A input parses to name "Jane Doe", email
"jane@x.com", phone "555-123-4567", location "" (empty — the single
contact line is disqualified by its `@` and phone digits), and exactly
one education entry with degree "BS Computer Science", school "MIT",
year "2020". -/
theorem C1_scenarioA_amended :
    (ResumeParser.parse janeInput).name = "Jane Doe" ∧
    (ResumeParser.parse janeInput).contact.email = "jane@x.com" ∧
    (ResumeParser.parse janeInput).contact.phone = "555-123-4567" ∧
    (ResumeParser.parse janeInput).contact.location = "" ∧
    (ResumeParser.parse janeInput).education =
      [{ degree := "BS Computer Science", school := "MIT", year := "2020", details := [] }] := by
  exact ⟨by decide, by decide, by decide, by decide, by decide⟩

/-- C4: `parse` never fails on available input however malformed it is —
the whole pipeline is total — and the only failure of the file-backed
entry point is the "source not found" condition, exactly when the
backing file is unavailable. -/
theorem C4_parse_fails_iff_source_missing :
    ∀ (fs : String → Option String) (path : String),
      (ResumeParser.parse_file fs path).toOption.isSome = (fs path).isSome ∧
      (∀ c, fs path = some c →
        ResumeParser.parse_file fs path = Except.ok (ResumeParser.parse c)) := by
  intro fs path
  cases h : fs path <;>
    simp [ResumeParser.parse_file, ResumeParser.read_file, h, Except.toOption]

/-- Witness for C4 at a concrete file system and path. -/
theorem C4_parse_fails_iff_source_missing_witness :
    ResumeParser.parse_file (fun _ => some janeInput) "resume.md" =
      Except.ok (ResumeParser.parse janeInput) :=
  (C4_parse_fails_iff_source_missing (fun _ => some janeInput) "resume.md").2 janeInput rfl

/-- C10: the Length check can never be an info-severity failure: the page
estimate `max 1 (count / 30)` is always at least `MIN_PAGES = 1`, so the
"too short" branch is dead and the result is either an info pass or a
warning failure. -/
theorem C10_length_no_info_failure : ∀ d : DocxDoc,
    ¬ ((ATSValidator.check_page_length d).passed = false ∧
       (ATSValidator.check_page_length d).severity = "info") ∧
    (((ATSValidator.check_page_length d).passed = true ∧
      (ATSValidator.check_page_length d).severity = "info") ∨
     ((ATSValidator.check_page_length d).passed = false ∧
      (ATSValidator.check_page_length d).severity = "warning")) := by
  intro d
  unfold ATSValidator.check_page_length
  dsimp only
  have h1 : 1 ≤ max 1 ((d.paragraphs.filter (fun p => pyStrip p != "")).length / 30) :=
    le_max_left _ _
  split
  · exact ⟨by simp, Or.inl ⟨rfl, rfl⟩⟩
  · split
    · next h2 h3 => omega
    · exact ⟨by simp, Or.inr ⟨rfl, rfl⟩⟩

/-- C7: an unreadable artifact (missing file, or file that cannot be
opened as a document) yields `is_valid = false` with exactly one
result, a failed critical check; none of the content checks run. -/
theorem C7_unreadable_single_critical : ∀ p : String,
    ATSValidator.validate (Artifact.missing p) =
      (false, [⟨"File Existence", false, "File not found: " ++ p, "critical"⟩]) ∧
    ATSValidator.validate (Artifact.unreadable p) =
      (false, [⟨"File Format", false, "Cannot open as .docx file", "critical"⟩]) :=
  fun _ => ⟨rfl, rfl⟩

/-! Reserved section-name substrings claimed by the typed categories. -/

def reservedPats : List String :=
  ["summary", "skill", "experience", "education", "certification"]

/-- A key is clean when its lowercased form contains none of the five
reserved substrings. -/
def noReservedKey (k : String) : Bool :=
  reservedPats.all (fun p => !containsStr (toLowerStr k) p)

theorem dictSet_keys_all (p : String → Bool) :
    ∀ (m : List (String × String)) (k v : String),
      (m.map Prod.fst).all p = true → p k = true →
      ((dictSet m k v).map Prod.fst).all p = true := by
  intro m
  induction m with
  | nil =>
    intro k v _ hk
    simp [dictSet, hk]
  | cons kv t ih =>
    intro k v hm hk
    obtain ⟨k0, v0⟩ := kv
    simp only [List.map_cons, List.all_cons, Bool.and_eq_true] at hm
    by_cases h : (k0 == k) = true
    · simp [dictSet, h, hm.1, hm.2]
    · simp only [dictSet, h]
      simp only [Bool.false_eq_true] at h
      simp [h, hm.1, ih k v hm.2 hk]

theorem route_step_keys_all (d : ResumeData) (sec : String × String)
    (hd : (d.raw_sections.map Prod.fst).all noReservedKey = true) :
    (((ResumeParser.route_step d sec).raw_sections).map Prod.fst).all noReservedKey = true := by
  unfold ResumeParser.route_step
  dsimp only
  split
  · exact hd
  · split
    · exact hd
    · split
      · exact hd
      · split
        · exact hd
        · split
          · exact hd
          · next h1 h2 h3 h4 h5 =>
            apply dictSet_keys_all _ _ _ _ hd
            simp only [Bool.not_eq_true] at h1 h2 h3 h4 h5
            simp [noReservedKey, reservedPats, h1, h2, h3, h4, h5]

theorem foldl_route_keys_all :
    ∀ (secs : List (String × String)) (d : ResumeData),
      (d.raw_sections.map Prod.fst).all noReservedKey = true →
      (((secs.foldl ResumeParser.route_step d).raw_sections).map Prod.fst).all
        noReservedKey = true := by
  intro secs
  induction secs with
  | nil => intro d hd; exact hd
  | cons s t ih => intro d hd; exact ih _ (route_step_keys_all d s hd)

/-- C2: for every raw input, no key of the parsed `raw_sections` contains
(case-insensitively) any of "summary", "skill", "experience",
"education" or "certification" — such sections are always claimed by
the earlier typed branches of the routing chain. -/
theorem C2_raw_sections_never_reserved : ∀ content : String,
    (((ResumeParser.parse content).raw_sections).map Prod.fst).all noReservedKey = true := by
  intro content
  unfold ResumeParser.parse
  exact foldl_route_keys_all _ _ rfl

/-- C6: splitting an experience heading on `|`, the first stripped segment
is the title and the second the company; a third segment becomes dates
exactly when it contains a 4-digit run or a month name, else the
location; a present fourth segment always becomes the dates,
overwriting; absent segments leave empty strings. -/
theorem C6_job_header_segments : ∀ h : String,
    (ResumeParser.parse_job_header h).title = ((splitStr '|' h).map pyStrip).getD 0 "" ∧
    (ResumeParser.parse_job_header h).company = ((splitStr '|' h).map pyStrip).getD 1 "" ∧
    (ResumeParser.parse_job_header h).location =
      (if 3 ≤ ((splitStr '|' h).map pyStrip).length then
        (if ResumeParser.looksLikeDates (((splitStr '|' h).map pyStrip).getD 2 "") = true
         then "" else ((splitStr '|' h).map pyStrip).getD 2 "")
       else "") ∧
    (ResumeParser.parse_job_header h).dates =
      (if 4 ≤ ((splitStr '|' h).map pyStrip).length then
        ((splitStr '|' h).map pyStrip).getD 3 ""
       else if 3 ≤ ((splitStr '|' h).map pyStrip).length then
        (if ResumeParser.looksLikeDates (((splitStr '|' h).map pyStrip).getD 2 "") = true
         then ((splitStr '|' h).map pyStrip).getD 2 "" else "")
       else "") ∧
    (ResumeParser.parse_job_header h).description = "" ∧
    (ResumeParser.parse_job_header h).achievements = [] := by
  intro h
  unfold ResumeParser.parse_job_header
  dsimp only
  split_ifs <;> simp_all <;> (rw [List.getElem?_eq_none (by omega)]; rfl)

/-- C9: the Spacing result of the formatting check is a warning failure
exactly when more than 10 empty paragraphs exist (an info pass
otherwise), and a Line Length result exists exactly when more than 5
paragraphs exceed 150 characters, in which case it is an info failure. -/
theorem C9_formatting_results : ∀ d : DocxDoc,
    (((ATSValidator.check_formatting d).any
        (fun r => r.check_name == "Spacing" && !r.passed && r.severity == "warning")) = true
      ↔ 10 < ATSValidator.empty_para_count d) ∧
    (((ATSValidator.check_formatting d).any
        (fun r => r.check_name == "Spacing" && r.passed && r.severity == "info")) = true
      ↔ ATSValidator.empty_para_count d ≤ 10) ∧
    (((ATSValidator.check_formatting d).any
        (fun r => r.check_name == "Line Length" && !r.passed && r.severity == "info")) = true
      ↔ 5 < ATSValidator.long_para_count d) ∧
    (((ATSValidator.check_formatting d).any
        (fun r => r.check_name == "Line Length")) = true
      ↔ 5 < ATSValidator.long_para_count d) := by
  intro d
  by_cases h1 : 10 < ATSValidator.empty_para_count d <;>
    by_cases h2 : 5 < ATSValidator.long_para_count d <;>
      simp [ATSValidator.check_formatting, h1, h2, Nat.not_lt] <;>
        omega

/-- Skills-section input exercising the bold-label-with-colon line. -/
def skillsColonInput : String := "### Langs\nPython\n**Tools**: git, docker\nVim"

/-- C5, counterexample: after `**Tools**: git, docker` the subsequent
plain line "Vim" is appended under the still-current category "Langs"
(set by the earlier subheading), not under "Tools" — the bold-colon
branch never updates the current category. -/
theorem C5_bold_colon_counterexample :
    ResumeParser.parse_skills skillsColonInput =
      [("Langs", ["Python", "Vim"]), ("Tools", ["git", "docker"])] ∧
    ¬ "Vim" ∈ dictGetD (ResumeParser.parse_skills skillsColonInput) "Tools" [] := by
  exact ⟨by decide, by decide⟩

/-- C5 (amended): a bold-label-with-colon line sets that category's list
directly from the comma-split of the text after the colon, but leaves
the current category unchanged, so every subsequent plain skill line is
still appended under the previously current category. -/
theorem C5_bold_colon_amended
    (st : List (String × List String) × String) (line0 g1 g2 : String)
    (h0 : (pyStrip line0 == "") = false)
    (h1 : strStartsWith (pyStrip line0) "### " = false)
    (h2 : (strStartsWith (pyStrip line0) "**" && strEndsWith (pyStrip line0) "**") = false)
    (h3 : (containsStr (pyStrip line0) "**" && containsStr (pyStrip line0) ":") = true)
    (h4 : ResumeParser.boldColonMatch (pyStrip line0) = some (g1, g2)) :
    ResumeParser.skills_step st line0 =
      (dictSet st.1 (pyStrip g1) ((splitStr ',' (pyStrip g2)).map pyStrip), st.2) := by
  unfold ResumeParser.skills_step
  dsimp only
  simp [h0, h1, h2, h3, h4]

/-- Witness for C5 (amended) at a concrete state and line. -/
theorem C5_bold_colon_amended_witness :
    ResumeParser.skills_step ([("Langs", ["Python"])], "Langs") "**Tools**: git, docker" =
      ([("Langs", ["Python"]), ("Tools", ["git", "docker"])], "Langs") := by
  have h := C5_bold_colon_amended ([("Langs", ["Python"])], "Langs")
    "**Tools**: git, docker" "Tools" "git, docker"
    (by decide) (by decide) (by decide) (by decide) (by decide)
  rw [h]
  decide

theorem filter_length_ne_zero {α : Type} (p : α → Bool) (l : List α) (a : α)
    (ha : a ∈ l) (hp : p a = true) : ¬ (l.filter p).length = 0 := by
  intro h0
  rw [List.length_eq_zero] at h0
  have hin := List.mem_filter.mpr (And.intro ha hp)
  rw [h0] at hin
  exact List.not_mem_nil _ hin

theorem validate_invalid_of_mem (d : DocxDoc) (r : ValidationResult)
    (hmem : r ∈ (ATSValidator.validate (Artifact.readable d)).2)
    (hp : (!r.passed && r.severity == "critical") = true) :
    (ATSValidator.validate (Artifact.readable d)).1 = false := by
  unfold ATSValidator.validate at hmem ⊢
  dsimp only at hmem ⊢
  exact decide_eq_false
    (filter_length_ne_zero (fun r => !r.passed && r.severity == "critical") _ r hmem hp)

theorem validate_valid_of_none (d : DocxDoc)
    (hall : ∀ r ∈ (ATSValidator.validate (Artifact.readable d)).2,
      (!r.passed && r.severity == "critical") = false) :
    (ATSValidator.validate (Artifact.readable d)).1 = true := by
  unfold ATSValidator.validate at hall ⊢
  dsimp only at hall ⊢
  apply decide_eq_true
  rw [List.length_eq_zero, List.filter_eq_nil_iff]
  intro a ha
  simp [hall a ha]

/-- C3: a readable artifact with at least one table gets a failed
critical Tables result and `is_valid = false`; with no tables the
Tables check is an info pass; and when every failing check is
non-critical, `is_valid = true`. -/
theorem C3_tables_drive_validity (d : DocxDoc) :
    (0 < d.tables →
      (ATSValidator.check_tables d).passed = false ∧
      (ATSValidator.check_tables d).severity = "critical" ∧
      (ATSValidator.validate (Artifact.readable d)).1 = false) ∧
    (d.tables = 0 →
      (ATSValidator.check_tables d).passed = true ∧
      (ATSValidator.check_tables d).severity = "info") ∧
    ((∀ r ∈ (ATSValidator.validate (Artifact.readable d)).2,
        r.passed = false → r.severity ≠ "critical") →
      (ATSValidator.validate (Artifact.readable d)).1 = true) := by
  refine ⟨fun htab => ?_, fun htab => ?_, fun hall => ?_⟩
  · have hrec : ATSValidator.check_tables d =
        ⟨"Tables", false,
          "Document contains tables. ATS systems may not parse tables correctly.",
          "critical"⟩ := by
      unfold ATSValidator.check_tables
      rw [if_neg (by omega)]
    refine ⟨by rw [hrec], by rw [hrec], ?_⟩
    apply validate_invalid_of_mem d (ATSValidator.check_tables d)
    · unfold ATSValidator.validate
      dsimp only
      simp
    · rw [hrec]
      decide
  · have hrec : ATSValidator.check_tables d =
        ⟨"Tables", true, "No tables found (good for ATS)", "info"⟩ := by
      unfold ATSValidator.check_tables
      rw [if_pos htab]
    exact ⟨by rw [hrec], by rw [hrec]⟩
  · apply validate_valid_of_none
    intro r hr
    cases hrp : r.passed
    · have hs := hall r hr hrp
      simp [Bool.and_eq_true, beq_eq_false_iff_ne, hs]
    · simp [hrp]

/-- A readable artifact containing one table (all other surfaces empty). -/
def tableDoc : DocxDoc := ⟨1000, [], 1, [], []⟩

/-- A readable artifact with no tables and no other critical issues. -/
def cleanDoc : DocxDoc := ⟨1000, [], 0, [], []⟩

/-- Witness for C3 at concrete artifacts. -/
theorem C3_tables_drive_validity_witness :
    (ATSValidator.validate (Artifact.readable tableDoc)).1 = false ∧
    (ATSValidator.check_tables cleanDoc).passed = true ∧
    (ATSValidator.validate (Artifact.readable cleanDoc)).1 = true :=
  ⟨((C3_tables_drive_validity tableDoc).1 (by decide)).2.2,
   ((C3_tables_drive_validity cleanDoc).2.1 rfl).1,
   (C3_tables_drive_validity cleanDoc).2.2 (by decide)⟩

/-- A block is an allowed header for a header-plus-summary-plus-skills
rendering: any non-header block, or a header titled "SUMMARY" or
"CORE SKILLS". -/
def allowedHeader (b : Block) : Bool :=
  match b with
  | Block.header t => t == "SUMMARY" || t == "CORE SKILLS"
  | _ => true

theorem allowedHeader_add_header (n : String) (c : Contact) :
    (DocxBuilder.add_header n c).all allowedHeader = true := by
  unfold DocxBuilder.add_header
  dsimp only
  simp [List.all_append, List.all_map, allowedHeader, Function.comp]

theorem allowedHeader_summary (s : String) :
    (DocxBuilder.add_section "Summary" s).all allowedHeader = true := by
  unfold DocxBuilder.add_section
  by_cases hc : pyStrip s ≠ "" <;> simp [hc, allowedHeader] <;> decide

theorem allowedHeader_skills (sk : List (String × List String)) :
    (DocxBuilder.add_skills_section sk).all allowedHeader = true := by
  unfold DocxBuilder.add_skills_section
  simp [List.all_append, List.all_map, allowedHeader, Function.comp]
  refine ⟨by decide, ?_⟩
  intro b cat items hmem hne heq
  subst heq
  rfl

/-- C8: building a document whose experience, education, certifications
and other sections are all empty emits exactly the header block plus
the summary and skills sections when (and only when) those are
non-empty; every section header in the output is "SUMMARY" or
"CORE SKILLS" — no orphaned "PROFESSIONAL EXPERIENCE", "EDUCATION" or
"CERTIFICATIONS" header and no other-section header is emitted. -/
theorem C8_empty_collections_render (name : String) (c : Contact)
    (summary : String) (skills : List (String × List String)) :
    DocxBuilder.build ⟨name, c, summary, skills, [], [], [], []⟩ =
      DocxBuilder.add_header name c ++
      (if summary ≠ "" then DocxBuilder.add_section "Summary" summary else []) ++
      (if skills ≠ [] then DocxBuilder.add_skills_section skills else []) ∧
    (DocxBuilder.build ⟨name, c, summary, skills, [], [], [], []⟩).all allowedHeader = true := by
  have hbuild : DocxBuilder.build ⟨name, c, summary, skills, [], [], [], []⟩ =
      DocxBuilder.add_header name c ++
      (if summary ≠ "" then DocxBuilder.add_section "Summary" summary else []) ++
      (if skills ≠ [] then DocxBuilder.add_skills_section skills else []) := by
    simp [DocxBuilder.build]
  refine ⟨hbuild, ?_⟩
  rw [hbuild]
  by_cases h1 : summary ≠ "" <;> by_cases h2 : skills ≠ [] <;>
    simp [h1, h2, List.all_append, allowedHeader_add_header,
      allowedHeader_summary, allowedHeader_skills]
